import Mathlib

/-!
Verification development for the niceTraffic ETL pipeline.

The pipeline (run_full_pipeline.py) extracts traffic-flow rows from a REST
API (extract_traffic_duckdb.py), weather rows from another REST API
(ELTscripts/extract_weather_duckdb.py), loads them into a DuckDB store
(load_traffic_duckdb.py), and joins/aggregates them
(ELTscripts/transform_weather_traffic_duckdb.py).

Shallow embedding conventions:
* machine doubles are modelled as exact rationals (ℚ);
* timestamps are epoch seconds, modelled as ℤ (the SQL compares
  EPOCH(...) values);
* SQL NULL / Python None is `Option.none`;
* DuckDB tables are Lean lists in table scan order; a table that does not
  exist is `Option.none` at the database level;
* Python functions that may raise to their caller return `Except Unit`;
* HTTP responses are modelled structurally: the body is either empty,
  malformed (the XML/JSON parser raises), or a well-formed document whose
  relevant fields are recorded.
-/

namespace NiceTraffic

/-! ## String parsing primitives

`splitPart` models DuckDB `SPLIT_PART(s, ',', n)` (1-based, empty string
when out of range).  `parseDouble` models the numeric-text parse shared by
DuckDB `CAST(... AS DOUBLE)` and pandas `pd.to_numeric(..., errors='coerce')`:
optional sign, decimal digits with an optional fractional part and an
optional exponent; anything else fails. -/

/-- Split a character list on the comma character. -/
def splitOnCommaChars : List Char → List (List Char)
  | [] => [[]]
  | c :: cs =>
    let r := splitOnCommaChars cs
    if c = ',' then [] :: r
    else
      match r with
      | [] => [[c]]
      | h :: t => (c :: h) :: t

/-- DuckDB SPLIT_PART with a comma separator (1-based index, default empty). -/
def splitPart (s : String) (n : Nat) : List Char :=
  (splitOnCommaChars s.data).getD (n - 1) []

/-- Numeric value of a digit list (most significant first). -/
def digitsVal (l : List Char) : Nat :=
  l.foldl (fun a c => a * 10 + (c.toNat - 48)) 0

/-- Check that every character of the list is a decimal digit. -/
def allDigits (l : List Char) : Bool :=
  l.all (fun c => c.isDigit)

/-- Split a character list at the first occurrence of a decimal dot. -/
def splitAtDot : List Char → (List Char × Option (List Char))
  | [] => ([], none)
  | c :: cs =>
    if c = '.' then ([], some cs)
    else
      let r := splitAtDot cs
      (c :: r.1, r.2)

/-- Parse an unsigned decimal mantissa such as "12", "12.5", ".5", "12.". -/
def parseMantissa (l : List Char) : Option ℚ :=
  match splitAtDot l with
  | (ip, none) =>
    if ip ≠ [] ∧ allDigits ip then some (digitsVal ip : ℚ) else none
  | (ip, some fp) =>
    if (ip ≠ [] ∨ fp ≠ []) ∧ allDigits ip ∧ allDigits fp then
      some ((digitsVal ip : ℚ) + (digitsVal fp : ℚ) / (10 : ℚ) ^ fp.length)
    else none

/-- Strip one optional leading sign, returning the sign factor and the rest. -/
def stripSign : List Char → (ℚ × List Char)
  | [] => (1, [])
  | c :: cs =>
    if c = '-' then (-1, cs)
    else if c = '+' then (1, cs) else (1, c :: cs)

/-- Split a character list at the first exponent marker (e or E). -/
def splitAtExp : List Char → (List Char × Option (List Char))
  | [] => ([], none)
  | c :: cs =>
    if c = 'e' ∨ c = 'E' then ([], some cs)
    else
      let r := splitAtExp cs
      (c :: r.1, r.2)

/-- Parse a signed decimal integer used as an exponent. -/
def parseExpInt (l : List Char) : Option ℤ :=
  match stripSign l with
  | (sgn, ds) =>
    if ds ≠ [] ∧ allDigits ds then
      some (if sgn = 1 then (digitsVal ds : ℤ) else -(digitsVal ds : ℤ))
    else none

/-- Numeric text parse modelling CAST(text AS DOUBLE) / pd.to_numeric coerce;
returns none when the text is not a number. -/
def parseDouble (s : String) : Option ℚ :=
  match stripSign s.data with
  | (sgn, body) =>
    match splitAtExp body with
    | (mant, none) => (parseMantissa mant).map (fun m => sgn * m)
    | (mant, some ex) =>
      match parseMantissa mant, parseExpInt ex with
      | some m, some e => some (sgn * m * (10 : ℚ) ^ e)
      | _, _ => none

/-- Parse a "lat,lon" point string into coordinates, as the transform's
CAST(SPLIT_PART(t.point, ',', 1) AS DOUBLE) / SPLIT_PART(..., 2) pair does;
fails (a DuckDB conversion error) when either part is not numeric. -/
def parsePoint (s : String) : Option (ℚ × ℚ) :=
  match parseDouble ⟨splitPart s 1⟩, parseDouble ⟨splitPart s 2⟩ with
  | some la, some lo => some (la, lo)
  | _, _ => none

/-! ## Traffic extractor (extract_traffic_duckdb.py)

`parse_traffic_response_to_dataframe` builds, for a well-formed XML body,
one record from `root.find(tag)` for the seven scalar tags; numeric columns
go through `pd.to_numeric(errors='coerce')` and the closure flag through
`astype(str).str.lower() == 'true'`.  Empty input and an XML parse error
both yield an empty DataFrame. -/

/-- Scalar child-tag texts found in a well-formed flowSegmentData document:
`none` when the tag is absent (or its text is empty). -/
structure FlowSegmentData where
  frc : Option String
  currentSpeed : Option String
  freeFlowSpeed : Option String
  currentTravelTime : Option String
  freeFlowTravelTime : Option String
  confidence : Option String
  roadClosure : Option String
deriving DecidableEq

/-- XML response body as seen by the traffic parser: falsy input, a body on
which ET.fromstring raises ParseError, or a well-formed document. -/
inductive XmlInput where
  | empty : XmlInput
  | malformed : XmlInput
  | wellFormed (seg : FlowSegmentData) : XmlInput
deriving DecidableEq

/-- One parsed traffic record after type conversion. -/
structure ParsedTrafficRecord where
  frc : Option String
  currentSpeed : Option ℚ
  freeFlowSpeed : Option ℚ
  currentTravelTime : Option ℚ
  freeFlowTravelTime : Option ℚ
  confidence : Option ℚ
  roadClosure : Bool
deriving DecidableEq

/-- The numeric column conversion: absent stays null, present text is
coerced, unparsable text becomes null. -/
def toNumeric (v : Option String) : Option ℚ :=
  v.bind parseDouble

/-- The closure flag conversion: str(value).lower() compared to "true"
(absent values render as "none", hence False). -/
def closureFlag (v : Option String) : Bool :=
  match v with
  | some s => s.toLower = "true"
  | none => false

/-- parse_traffic_response_to_dataframe: zero rows for empty or malformed
input, one converted record for a well-formed document. -/
def parse_traffic_response_to_dataframe : XmlInput → List ParsedTrafficRecord
  | .empty => []
  | .malformed => []
  | .wellFormed seg =>
    [{ frc := seg.frc
       currentSpeed := toNumeric seg.currentSpeed
       freeFlowSpeed := toNumeric seg.freeFlowSpeed
       currentTravelTime := toNumeric seg.currentTravelTime
       freeFlowTravelTime := toNumeric seg.freeFlowTravelTime
       confidence := toNumeric seg.confidence
       roadClosure := closureFlag seg.roadClosure }]

/-- Decoding contract of one numeric column: present-and-parsable text
yields that value, absent or unparsable text yields null. -/
def numericFieldSpec (src : Option String) (out : Option ℚ) : Prop :=
  (∀ s q, src = some s → parseDouble s = some q → out = some q) ∧
  (src = none → out = none) ∧
  (∀ s, src = some s → parseDouble s = none → out = none)

/-! ## Weather extractor (ELTscripts/extract_weather_duckdb.py)

`parse_weather_response_to_dataframe(json_data, location_coords)` decodes
`data.get('current', {})`; when that object is absent or empty it produces
zero rows, otherwise exactly one row whose latitude/longitude/location_name
come from the caller's `location_coords` dict and whose
temperature/summary/icon come from the `current` object.  Coordinates or
names that may be present elsewhere in the response body are never read. -/

/-- Caller-supplied location descriptor ({"lat": .., "lon": .., "name": ..});
each entry is read with dict.get and may be absent. -/
structure LocationCoords where
  lat : Option ℚ
  lon : Option ℚ
  name : Option String
deriving DecidableEq

/-- Fields of the response's "current" object that the parser reads.
JSON numbers are modelled as exact rationals. -/
structure CurrentConditions where
  temperature : Option ℚ
  summary : Option String
  icon : Option String
deriving DecidableEq

/-- A decoded weather response body.  `current = none` models a missing or
empty "current" section.  The body-level coordinate and name fields model
data present in the response that the parser never reads. -/
structure WeatherResponse where
  current : Option CurrentConditions
  bodyLatitude : Option ℚ
  bodyLongitude : Option ℚ
  bodyLocationName : Option String
deriving DecidableEq

/-- JSON response body as seen by the weather parser: falsy input, a body on
which json.loads raises, or a decoded document. -/
inductive JsonInput where
  | empty : JsonInput
  | malformed : JsonInput
  | wellFormed (r : WeatherResponse) : JsonInput
deriving DecidableEq

/-- One weather row as stored in the weather table
(fetch_timestamp_utc in epoch seconds). -/
structure WeatherRow where
  latitude : Option ℚ
  longitude : Option ℚ
  fetch_timestamp_utc : ℤ
  location_name : Option String
  temperature_celsius : Option ℚ
  weather_description : Option String
  weather_icon : Option String
deriving DecidableEq

/-- parse_weather_response_to_dataframe: zero rows for empty, malformed, or
current-less input; otherwise one row built from the caller's coordinates
and the current conditions, stamped with the current UTC time. -/
def parse_weather_response_to_dataframe (j : JsonInput) (loc : LocationCoords)
    (nowUtc : ℤ) : List WeatherRow :=
  match j with
  | .empty => []
  | .malformed => []
  | .wellFormed r =>
    match r.current with
    | none => []
    | some c =>
      [{ latitude := loc.lat
         longitude := loc.lon
         fetch_timestamp_utc := nowUtc
         location_name := loc.name
         temperature_celsius := c.temperature
         weather_description := c.summary
         weather_icon := c.icon }]

/-! ## Traffic rows as stored (extract_traffic_duckdb.py +
run_full_pipeline.py Step 1 + load_traffic_duckdb.py)

The extractor tags each parsed DataFrame with the point that produced it
and the current timestamp.  The pipeline then loads DataFrame i with
`point_identifier = traffic_points[i]` ("Assuming order is preserved"), and
`load_dataframe_to_duckdb` overwrites the `point` and
`extraction_timestamp` columns with that identifier and the load-time
timestamp before inserting. -/

/-- One traffic row as stored in the traffic table. -/
structure TrafficRow where
  frc : Option String
  currentSpeed : Option ℚ
  freeFlowSpeed : Option ℚ
  currentTravelTime : Option ℚ
  freeFlowTravelTime : Option ℚ
  confidence : Option ℚ
  roadClosure : Bool
  point : String
  extraction_timestamp : ℤ
deriving DecidableEq

/-- Tag a parsed record with a point identifier and a timestamp, as both the
extractor (df['point'] = point_identifier; df['extraction_timestamp'] =
now()) and the loader do. -/
def tagRecord (r : ParsedTrafficRecord) (point : String) (ts : ℤ) : TrafficRow :=
  { frc := r.frc
    currentSpeed := r.currentSpeed
    freeFlowSpeed := r.freeFlowSpeed
    freeFlowTravelTime := r.freeFlowTravelTime
    currentTravelTime := r.currentTravelTime
    confidence := r.confidence
    roadClosure := r.roadClosure
    point := point
    extraction_timestamp := ts }

/-- Overwrite the metadata columns of a stored-shape row, as
load_dataframe_to_duckdb does on a DataFrame that already carries them. -/
def retagRow (r : TrafficRow) (point : String) (ts : ℤ) : TrafficRow :=
  { r with point := point, extraction_timestamp := ts }

/-- A scripted extraction run: each monitored point paired with the fetch
outcome for it (`none` models a transport/HTTP failure, in which case
fetch_data_from_api returns None and the point is skipped). -/
def extract_and_transform_traffic_data
    (script : List (String × Option XmlInput)) (extractNow : ℤ) :
    List (List TrafficRow) :=
  script.filterMap fun pr =>
    match pr.2 with
    | none => none
    | some x =>
      let rows := parse_traffic_response_to_dataframe x
      if rows.isEmpty then none
      else some (rows.map fun r => tagRecord r pr.1 extractNow)

/-- Pipeline Step 1: the rows appended to the traffic table by one run.
The i-th returned DataFrame is loaded with point identifier
traffic_points[i], and the loader overwrites the point and timestamp
columns with that identifier and the load-time timestamp. -/
def step1StoredRows (script : List (String × Option XmlInput))
    (extractNow loadNow : ℤ) : List TrafficRow :=
  let dfs := extract_and_transform_traffic_data script extractNow
  let points := script.map Prod.fst
  dfs.enum.flatMap fun idf =>
    if idf.2.isEmpty then []
    else idf.2.map fun r => retagRow r (points.getD idf.1 "") loadNow

/-! ## Join-aggregate transform
(ELTscripts/transform_weather_traffic_duckdb.py, run_transformation)

The SELECT joins each traffic row laterally to the single weather row of
its resolved location name with minimal
ABS(EPOCH(fetch_timestamp_utc) - EPOCH(extraction_timestamp)), then groups
by (location_name, weather_description, temperature_celsius,
transformation_timestamp) and aggregates AVG(currentTravelTime/60.0),
AVG(confidence), FIRST(extraction_timestamp).

The resolved location name is the scalar subquery
  SELECT location_name FROM weather WHERE latitude = CAST(SPLIT_PART(point,
  ',', 1) AS DOUBLE) AND longitude = CAST(...2...) LIMIT 1
which is NULL when no coordinates match; the CAST raises a conversion
error when a point part is not numeric (the correlated predicate is only
evaluated when the weather table has rows to scan).  SQL NULL = x never
matches, and the inner lateral join drops traffic rows with no match.
Groups and rows inside a group are taken in table scan order, and ties in
the nearest-time ordering keep the first row in scan order. -/

/-- Resolve a traffic point to a weather location name: the location_name
of the first weather row whose coordinates equal the point's parsed parts,
NULL when none matches, and a conversion error when a part is not numeric
while the weather table is non-empty. -/
def resolveLocationName (weather : List WeatherRow) (point : String) :
    Except Unit (Option String) :=
  match weather with
  | [] => .ok none
  | _ =>
    match parsePoint point with
    | none => .error ()
    | some p =>
      .ok ((weather.find? fun w =>
        decide (w.latitude = some p.1 ∧ w.longitude = some p.2)).bind
          (fun w => w.location_name))

/-- Absolute time difference used in the lateral ORDER BY. -/
def timeDiff (w : WeatherRow) (ts : ℤ) : ℕ :=
  (w.fetch_timestamp_utc - ts).natAbs

/-- The candidate with minimal time difference among w and the later rows,
keeping the earlier row in scan order on ties. -/
def nearestFrom (ts : ℤ) (w : WeatherRow) : List WeatherRow → WeatherRow
  | [] => w
  | u :: us =>
    if timeDiff w ts ≤ timeDiff (nearestFrom ts u us) ts then w
    else nearestFrom ts u us

/-- First row in scan order among those with minimal time difference. -/
def nearestIn (ts : ℤ) : List WeatherRow → Option WeatherRow
  | [] => none
  | w :: ws => some (nearestFrom ts w ws)

/-- The lateral subquery for one traffic row: the nearest-in-time weather
row among the rows of the resolved location name; NULL resolution or no
candidate yields no match and the traffic row is dropped by the join. -/
def matchWeather (weather : List WeatherRow) (t : TrafficRow) :
    Except Unit (Option WeatherRow) :=
  match resolveLocationName weather t.point with
  | .error e => .error e
  | .ok none => .ok none
  | .ok (some nm) =>
    .ok (nearestIn t.extraction_timestamp
      (weather.filter fun w => decide (w.location_name = some nm)))

/-- The joined relation in traffic-table scan order. -/
def joinTraffic (weather : List WeatherRow) :
    List TrafficRow → Except Unit (List (TrafficRow × WeatherRow))
  | [] => .ok []
  | t :: ts =>
    match matchWeather weather t with
    | .error e => .error e
    | .ok none => joinTraffic weather ts
    | .ok (some w) => (joinTraffic weather ts).map (fun js => (t, w) :: js)

/-- GROUP BY key: location name, weather description and temperature (the
transformation timestamp is constant over the run and omitted). -/
structure GroupKey where
  location_name : Option String
  weather_description : Option String
  temperature_celsius : Option ℚ
deriving DecidableEq

/-- Group key of one joined row. -/
def keyOf (p : TrafficRow × WeatherRow) : GroupKey :=
  { location_name := p.2.location_name
    weather_description := p.2.weather_description
    temperature_celsius := p.2.temperature_celsius }

/-- Deduplicate a list keeping the first occurrence of each element,
carrying the set of elements already emitted. -/
def firstDedupAux {α : Type} [DecidableEq α] (seen : List α) :
    List α → List α
  | [] => []
  | a :: l =>
    if a ∈ seen then firstDedupAux seen l
    else a :: firstDedupAux (a :: seen) l

/-- Deduplicate a list keeping the first occurrence of each element. -/
def firstDedup {α : Type} [DecidableEq α] (l : List α) : List α :=
  firstDedupAux [] l

/-- SQL AVG over a column: mean of the non-NULL values, NULL when there is
none. -/
def sqlAvg (xs : List (Option ℚ)) : Option ℚ :=
  let vs := xs.filterMap id
  if vs.isEmpty then none else some (vs.sum / vs.length)

/-- One row of the transformed_weather_traffic table. -/
structure SummaryRow where
  location_name : Option String
  avg_transit_time_minutes : Option ℚ
  avg_confidence_level : Option ℚ
  weather_description : Option String
  temperature_celsius : Option ℚ
  representative_traffic_timestamp : ℤ
  transformation_timestamp : ℤ
deriving DecidableEq

/-- Aggregate one group of joined rows (its members in scan order). -/
def mkSummary (js : List (TrafficRow × WeatherRow)) (now : ℤ)
    (k : GroupKey) : SummaryRow :=
  let members := js.filter fun p => decide (keyOf p = k)
  { location_name := k.location_name
    avg_transit_time_minutes :=
      sqlAvg (members.map fun p => p.1.currentTravelTime.map (fun x => x / 60))
    avg_confidence_level := sqlAvg (members.map fun p => p.1.confidence)
    weather_description := k.weather_description
    temperature_celsius := k.temperature_celsius
    representative_traffic_timestamp :=
      (members.map fun p => p.1.extraction_timestamp).headD 0
    transformation_timestamp := now }

/-- The grouped SELECT output: one row per distinct group key, groups in
order of first appearance. -/
def summarize (js : List (TrafficRow × WeatherRow)) (now : ℤ) :
    List SummaryRow :=
  (firstDedup (js.map keyOf)).map (mkSummary js now)

/-- run_transformation's INSERT ... SELECT: the batch of summary rows
appended by one run, or a database error propagated to the caller. -/
def run_transformation (traffic : List TrafficRow)
    (weather : List WeatherRow) (now : ℤ) :
    Except Unit (List SummaryRow) :=
  (joinTraffic weather traffic).map (fun js => summarize js now)

/-! ## Pipeline Step 3 (run_full_pipeline.py)

Before calling run_transformation, the pipeline checks that both source
tables exist and contain at least one row; otherwise it prints
"Skipping Transformation" and moves on without touching the summary
table.  run_transformation itself first creates the summary table with an
explicit schema if absent, then inserts the SELECT's output. -/

/-- Database state: the three tables, `none` when a table does not exist. -/
structure Database where
  traffic : Option (List TrafficRow)
  weather : Option (List WeatherRow)
  transformed : Option (List SummaryRow)
deriving DecidableEq

/-- Outcome of the transformation stage as reported to the pipeline. -/
inductive Step3Outcome where
  | ran : Step3Outcome
  | skipped : Step3Outcome
  | failed : Step3Outcome
deriving DecidableEq

/-- The pipeline's source-table check: the table exists and has rows. -/
def tableNonempty {α : Type} : Option (List α) → Bool
  | none => false
  | some l => !l.isEmpty

/-- Pipeline Step 3: check both source tables, then run the transformation
(creating the summary table if needed and appending its output); a missing
or empty source table is reported as a skip and changes nothing. -/
def step3Transform (db : Database) (now : ℤ) : Step3Outcome × Database :=
  if tableNonempty db.traffic && tableNonempty db.weather then
    match run_transformation (db.traffic.getD []) (db.weather.getD []) now with
    | .ok rows =>
      (.ran, { db with transformed := some (db.transformed.getD [] ++ rows) })
    | .error _ =>
      (.failed, { db with transformed := some (db.transformed.getD []) })
  else
    (.skipped, db)

/-! ## Store adapter, schema level
(load_traffic_duckdb.py and ELTscripts/extract_weather_duckdb.py)

This models the two append paths at the granularity of table shape.  A
DataFrame is its column list plus a row count; a table that does not exist
is `none`.  Modelled from the spec's store contract (§4.4): the store
"inserts rows whose column set must exactly match the existing table's
columns (a mismatch is an error, not reconciled automatically)" — the
mismatch detection itself lives in DuckDB, an external collaborator.  What
is taken from the source is the control flow around it:

* load_dataframe_to_duckdb returns early on an empty DataFrame, adds the
  point and extraction_timestamp columns, creates the table from the
  DataFrame's shape when absent, and wraps everything in
  `except duckdb.Error: print(...)` — the store error is logged and the
  function returns normally, nothing is re-raised;
* save_weather_to_duckdb returns early on an empty DataFrame, runs CREATE
  TABLE IF NOT EXISTS ... LIMIT 0 plus con.append, and its except block
  ends in `raise` — the store error propagates to the caller. -/

/-- A row batch at schema granularity. -/
structure RowBatch where
  cols : List String
  nrows : Nat
deriving DecidableEq

/-- A store table at schema granularity (`none` at the call sites below
models a table that does not exist). -/
structure StoreTable where
  cols : List String
  nrows : Nat
deriving DecidableEq

/-- pandas df[c] = value: overwrites column c in place, or adds it at the
end when absent. -/
def addCol (cols : List String) (c : String) : List String :=
  if c ∈ cols then cols else cols ++ [c]

/-- Append a batch to the store: create the table from the batch's shape
when absent, error on a column mismatch with an existing table. -/
def storeAppend (table : Option StoreTable) (df : RowBatch) :
    Except Unit (Option StoreTable) :=
  match table with
  | none => .ok (some { cols := df.cols, nrows := df.nrows })
  | some t =>
    if t.cols = df.cols then .ok (some { t with nrows := t.nrows + df.nrows })
    else .error ()

/-- load_dataframe_to_duckdb at schema level: no-op on an empty batch,
otherwise add the metadata columns and append; a store error is printed
and swallowed (the table is left as it was and the function returns
normally), so the result is never `.error`. -/
def load_dataframe_to_duckdb (table : Option StoreTable) (df : RowBatch) :
    Except Unit (Option StoreTable) :=
  if df.nrows = 0 then .ok table
  else
    let tagged : RowBatch :=
      { cols := addCol (addCol df.cols "point") "extraction_timestamp"
        nrows := df.nrows }
    match storeAppend table tagged with
    | .ok t => .ok t
    | .error _ => .ok table

/-- save_weather_to_duckdb at schema level: no-op on an empty batch,
otherwise append; a store error is printed and re-raised to the caller. -/
def save_weather_to_duckdb (table : Option StoreTable) (df : RowBatch) :
    Except Unit (Option StoreTable) :=
  if df.nrows = 0 then .ok table
  else
    match storeAppend table df with
    | .ok t => .ok t
    | .error e => .error e

/-! ## Concrete rows used by witnesses and counterexamples -/

/-- Weather row for location "L" captured at t = 90. -/
def wL90 : WeatherRow := ⟨some 1, some 2, 90, some "L", some 20, some "fog", none⟩

/-- Weather row for location "L" captured at t = 140. -/
def wL140 : WeatherRow := ⟨some 1, some 2, 140, some "L", some 21, some "fog", none⟩

/-- Traffic row at point (1, 2) extracted at t = 100. -/
def tL100 : TrafficRow :=
  ⟨none, none, none, some 60, none, some 1, false, "1.0,2.0", 100⟩

/-- Weather row for location "X" at coordinates (10, 20). -/
def wX : WeatherRow := ⟨some 10, some 20, 0, some "X", some 25, some "sun", none⟩

/-- Traffic row at point (10, 20) with travel time 120 s, confidence 1.0. -/
def tX120 : TrafficRow :=
  ⟨none, none, none, some 120, none, some 1, false, "10.0,20.0", 0⟩

/-- Traffic row at point (10, 20) with travel time 180 s, confidence 0.8. -/
def tX180 : TrafficRow :=
  ⟨none, none, none, some 180, none, some (4/5), false, "10.0,20.0", 0⟩

/-- Traffic row at point (9, 9), matching no weather location. -/
def t99 : TrafficRow :=
  ⟨none, none, none, some 60, none, some 1, false, "9.0,9.0", 0⟩

/-- Weather row for "X" captured at t = 0 with temperature 10 and
description "rain". -/
def wXrain : WeatherRow :=
  ⟨some 10, some 20, 0, some "X", some 10, some "rain", none⟩

/-- Weather row for "X" captured at t = 100 with temperature 20 and
description "sun". -/
def wXsun : WeatherRow :=
  ⟨some 10, some 20, 100, some "X", some 20, some "sun", none⟩

/-- Traffic row at point (10, 20) extracted at t = 10. -/
def tX10 : TrafficRow :=
  ⟨none, none, none, some 60, none, some 1, false, "10.0,20.0", 10⟩

/-- Traffic row at point (10, 20) extracted at t = 90. -/
def tX90 : TrafficRow :=
  ⟨none, none, none, some 120, none, some 1, false, "10.0,20.0", 90⟩

/-! ## Supporting lemmas -/

/-- Decidable equality on Except values, for concrete evaluation. -/
instance {ε α : Type} [DecidableEq ε] [DecidableEq α] :
    DecidableEq (Except ε α) := fun a b =>
  match a, b with
  | .ok x, .ok y =>
    if h : x = y then .isTrue (by rw [h]) else .isFalse (by simp [h])
  | .error x, .error y =>
    if h : x = y then .isTrue (by rw [h]) else .isFalse (by simp [h])
  | .ok _, .error _ => .isFalse (by simp)
  | .error _, .ok _ => .isFalse (by simp)

theorem nearestFrom_mem (ts : ℤ) (w : WeatherRow) (l : List WeatherRow) :
    nearestFrom ts w l ∈ w :: l := by
  induction l generalizing w with
  | nil => simp [nearestFrom]
  | cons u us ih =>
    simp only [nearestFrom]
    split_ifs
    · exact List.mem_cons_self _ _
    · exact List.mem_cons_of_mem _ (ih u)

theorem nearestFrom_min (ts : ℤ) (w : WeatherRow) (l : List WeatherRow) :
    ∀ v ∈ w :: l, timeDiff (nearestFrom ts w l) ts ≤ timeDiff v ts := by
  induction l generalizing w with
  | nil =>
    intro v hv
    rcases List.mem_cons.mp hv with rfl | hv'
    · exact le_refl _
    · simp at hv'
  | cons u us ih =>
    intro v hv
    simp only [nearestFrom]
    split_ifs with hle
    · rcases List.mem_cons.mp hv with rfl | hv'
      · exact le_refl _
      · exact le_trans hle (ih u v hv')
    · rcases List.mem_cons.mp hv with rfl | hv'
      · exact le_of_lt (lt_of_not_le hle)
      · exact ih u v hv'

theorem nearestIn_mem {ts : ℤ} {l : List WeatherRow} {w : WeatherRow}
    (h : nearestIn ts l = some w) : w ∈ l := by
  cases l with
  | nil => simp [nearestIn] at h
  | cons a l =>
    simp only [nearestIn, Option.some_inj] at h
    rw [← h]
    exact nearestFrom_mem ts a l

theorem nearestIn_min {ts : ℤ} {l : List WeatherRow} {w : WeatherRow}
    (h : nearestIn ts l = some w) :
    ∀ u ∈ l, timeDiff w ts ≤ timeDiff u ts := by
  cases l with
  | nil => simp [nearestIn] at h
  | cons a l =>
    simp only [nearestIn, Option.some_inj] at h
    rw [← h]
    exact nearestFrom_min ts a l

theorem nearestIn_isSome {ts : ℤ} {l : List WeatherRow} (h : l ≠ []) :
    ∃ w, nearestIn ts l = some w := by
  cases l with
  | nil => exact absurd rfl h
  | cons a l => exact ⟨nearestFrom ts a l, rfl⟩

theorem matchWeather_some {weather : List WeatherRow} {t : TrafficRow}
    {w : WeatherRow} (h : matchWeather weather t = .ok (some w)) :
    ∃ nm, resolveLocationName weather t.point = .ok (some nm) ∧
      nearestIn t.extraction_timestamp
        (weather.filter fun u => decide (u.location_name = some nm)) =
        some w := by
  unfold matchWeather at h
  cases hr : resolveLocationName weather t.point with
  | error e => rw [hr] at h; cases h
  | ok name? =>
    rw [hr] at h
    cases name? with
    | none => simp at h
    | some nm => exact ⟨nm, rfl, by simpa using h⟩

theorem matchWeather_weather_mem {weather : List WeatherRow}
    {t : TrafficRow} {w : WeatherRow}
    (h : matchWeather weather t = .ok (some w)) :
    w ∈ weather ∧ ∃ nm, w.location_name = some nm := by
  obtain ⟨nm, -, hn⟩ := matchWeather_some h
  have hmem := nearestIn_mem hn
  have := List.mem_filter.mp hmem
  exact ⟨this.1, nm, by simpa using this.2⟩

theorem joinTraffic_mem_of {weather : List WeatherRow}
    {traffic : List TrafficRow} {js : List (TrafficRow × WeatherRow)}
    {t : TrafficRow} {w : WeatherRow}
    (hj : joinTraffic weather traffic = .ok js) (ht : t ∈ traffic)
    (hm : matchWeather weather t = .ok (some w)) : (t, w) ∈ js := by
  induction traffic generalizing js with
  | nil => simp at ht
  | cons a ts ih =>
    rcases List.mem_cons.mp ht with rfl | ht'
    · simp only [joinTraffic, hm] at hj
      cases hrec : joinTraffic weather ts with
      | error e => rw [hrec] at hj; cases hj
      | ok js' =>
        rw [hrec] at hj
        simp only [Except.map, Except.ok.injEq] at hj
        rw [← hj]
        exact List.mem_cons_self _ _
    · cases hma : matchWeather weather a with
      | error e => simp only [joinTraffic, hma] at hj; cases hj
      | ok o =>
        cases o with
        | none =>
          simp only [joinTraffic, hma] at hj
          exact ih hj ht'
        | some w' =>
          simp only [joinTraffic, hma] at hj
          cases hrec : joinTraffic weather ts with
          | error e => rw [hrec] at hj; cases hj
          | ok js' =>
            rw [hrec] at hj
            simp only [Except.map, Except.ok.injEq] at hj
            rw [← hj]
            exact List.mem_cons_of_mem _ (ih hrec ht')

theorem joinTraffic_sources {weather : List WeatherRow}
    {traffic : List TrafficRow} {js : List (TrafficRow × WeatherRow)}
    {p : TrafficRow × WeatherRow}
    (hj : joinTraffic weather traffic = .ok js) (hp : p ∈ js) :
    p.1 ∈ traffic ∧ matchWeather weather p.1 = .ok (some p.2) := by
  induction traffic generalizing js with
  | nil =>
    simp only [joinTraffic, Except.ok.injEq] at hj
    rw [← hj] at hp
    simp at hp
  | cons a ts ih =>
    cases hma : matchWeather weather a with
    | error e => simp only [joinTraffic, hma] at hj; cases hj
    | ok o =>
      cases o with
      | none =>
        simp only [joinTraffic, hma] at hj
        obtain ⟨h1, h2⟩ := ih hj hp
        exact ⟨List.mem_cons_of_mem _ h1, h2⟩
      | some w' =>
        simp only [joinTraffic, hma] at hj
        cases hrec : joinTraffic weather ts with
        | error e => rw [hrec] at hj; cases hj
        | ok js' =>
          rw [hrec] at hj
          simp only [Except.map, Except.ok.injEq] at hj
          rw [← hj] at hp
          rcases List.mem_cons.mp hp with rfl | hp'
          · exact ⟨List.mem_cons_self _ _, hma⟩
          · obtain ⟨h1, h2⟩ := ih hrec hp'
            exact ⟨List.mem_cons_of_mem _ h1, h2⟩

theorem mem_firstDedupAux {α : Type} [DecidableEq α] {x : α} :
    ∀ {l seen : List α}, x ∈ firstDedupAux seen l ↔ x ∈ l ∧ x ∉ seen := by
  intro l
  induction l with
  | nil => simp [firstDedupAux]
  | cons a l ih =>
    intro seen
    simp only [firstDedupAux]
    split_ifs with ha
    · rw [ih]
      constructor
      · rintro ⟨h1, h2⟩
        exact ⟨List.mem_cons_of_mem _ h1, h2⟩
      · rintro ⟨h1, h2⟩
        rcases List.mem_cons.mp h1 with rfl | h1'
        · exact absurd ha h2
        · exact ⟨h1', h2⟩
    · simp only [List.mem_cons, ih]
      by_cases hxa : x = a
      · subst hxa; simp [ha]
      · simp [hxa]

theorem nodup_firstDedupAux {α : Type} [DecidableEq α] :
    ∀ (l seen : List α), (firstDedupAux seen l).Nodup := by
  intro l
  induction l with
  | nil => intro seen; simp [firstDedupAux]
  | cons a l ih =>
    intro seen
    simp only [firstDedupAux]
    split_ifs with ha
    · exact ih seen
    · refine List.nodup_cons.mpr ⟨?_, ih (a :: seen)⟩
      intro hmem
      exact (mem_firstDedupAux.mp hmem).2 (List.mem_cons_self _ _)

theorem mem_firstDedup {α : Type} [DecidableEq α] {x : α} {l : List α} :
    x ∈ firstDedup l ↔ x ∈ l := by
  unfold firstDedup
  rw [mem_firstDedupAux]
  simp

theorem nodup_firstDedup {α : Type} [DecidableEq α] (l : List α) :
    (firstDedup l).Nodup :=
  nodup_firstDedupAux l []

theorem resolveLocationName_some {weather : List WeatherRow}
    {point : String} {nm : String}
    (h : resolveLocationName weather point = .ok (some nm)) :
    ∃ p w0, parsePoint point = some p ∧ w0 ∈ weather ∧
      w0.latitude = some p.1 ∧ w0.longitude = some p.2 ∧
      w0.location_name = some nm := by
  unfold resolveLocationName at h
  cases weather with
  | nil => simp at h
  | cons a ws =>
    cases hp : parsePoint point with
    | none => rw [hp] at h; cases h
    | some p =>
      rw [hp] at h
      simp only [Except.ok.injEq] at h
      obtain ⟨w0, hf, hn⟩ := Option.bind_eq_some.mp h
      have hmem := List.mem_of_find?_eq_some hf
      have hpred := List.find?_some hf
      simp only [decide_eq_true_eq] at hpred
      exact ⟨p, w0, rfl, hmem, hpred.1, hpred.2, hn⟩

theorem matchWeather_none_of_no_coord_match {weather : List WeatherRow}
    {t : TrafficRow} {p : ℚ × ℚ} (hp : parsePoint t.point = some p)
    (hnomatch : ∀ w ∈ weather,
      ¬(w.latitude = some p.1 ∧ w.longitude = some p.2)) :
    matchWeather weather t = .ok none := by
  have hres : resolveLocationName weather t.point = .ok none := by
    cases weather with
    | nil => rfl
    | cons a ws =>
      have hfind : List.find?
          (fun w => decide (w.latitude = some p.1 ∧ w.longitude = some p.2))
          (a :: ws) = none := by
        rw [List.find?_eq_none]
        intro x hx
        simp only [decide_eq_true_eq]
        exact hnomatch x hx
      simp only [resolveLocationName, hp, hfind]
      rfl
  unfold matchWeather
  rw [hres]

theorem joinTraffic_skip {weather : List WeatherRow} {t : TrafficRow}
    (pre post : List TrafficRow)
    (hmt : matchWeather weather t = .ok none) :
    joinTraffic weather (pre ++ t :: post) =
      joinTraffic weather (pre ++ post) := by
  induction pre with
  | nil => simp only [List.nil_append, joinTraffic, hmt]
  | cons a pre ih =>
    simp only [List.cons_append, joinTraffic]
    cases hma : matchWeather weather a with
    | error e => rfl
    | ok o =>
      cases o with
      | none => exact ih
      | some w => exact congrArg (Except.map fun js => (a, w) :: js) ih

section ClaimTheorems

attribute [local semireducible] Rat.add Rat.mul Rat.sub Rat.inv

/-- C2: for every database state in which the traffic table or the weather
table is absent or has zero rows, the transformation stage appends nothing
to the summary table (the whole database is unchanged) and reports a skip,
not an error, to the pipeline. -/
theorem C2_skip_when_source_missing_or_empty (db : Database) (now : ℤ)
    (h : tableNonempty db.traffic = false ∨ tableNonempty db.weather = false) :
    step3Transform db now = (.skipped, db) := by
  unfold step3Transform
  rcases h with h | h <;> simp [h]

/-- Witness for C2 at a database with an existing-but-empty traffic table
and a non-empty weather table. -/
theorem C2_skip_witness :
    tableNonempty (some ([] : List TrafficRow)) = false ∧
    step3Transform
        ⟨some [], some [⟨some 10, some 20, 0, some "X", some 25, some "sun",
          none⟩], none⟩ 3 =
      (.skipped,
        ⟨some [], some [⟨some 10, some 20, 0, some "X", some 25, some "sun",
          none⟩], none⟩) :=
  ⟨rfl, C2_skip_when_source_missing_or_empty _ 3 (Or.inl rfl)⟩

/-- C8: an empty or malformed response body yields zero rows from the
corresponding parser, for the traffic (XML) and the weather (JSON)
extractor alike, and both parsers return rather than raise. -/
theorem C8_empty_or_malformed_yields_zero_rows :
    parse_traffic_response_to_dataframe .empty = [] ∧
    parse_traffic_response_to_dataframe .malformed = [] ∧
    ∀ (loc : LocationCoords) (nowUtc : ℤ),
      parse_weather_response_to_dataframe .empty loc nowUtc = [] ∧
      parse_weather_response_to_dataframe .malformed loc nowUtc = [] :=
  ⟨rfl, rfl, fun _ _ => ⟨rfl, rfl⟩⟩

/-- C9: appending an empty row batch is a no-op on both store paths: the
store state (including a non-existent table) is unchanged and no error is
raised. -/
theorem C9_empty_append_is_noop (table : Option StoreTable) (df : RowBatch)
    (h : df.nrows = 0) :
    load_dataframe_to_duckdb table df = .ok table ∧
    save_weather_to_duckdb table df = .ok table := by
  unfold load_dataframe_to_duckdb save_weather_to_duckdb
  simp [h]

/-- Witness for C9 on a store where the target table does not exist: no
table is created. -/
theorem C9_empty_append_witness :
    (⟨["frc"], 0⟩ : RowBatch).nrows = 0 ∧
    load_dataframe_to_duckdb none ⟨["frc"], 0⟩ = .ok none ∧
    save_weather_to_duckdb none ⟨["frc"], 0⟩ = .ok none :=
  ⟨rfl, (C9_empty_append_is_noop none ⟨["frc"], 0⟩ rfl).1,
    (C9_empty_append_is_noop none ⟨["frc"], 0⟩ rfl).2⟩

/-- C6 counterexample: a non-empty batch whose columns (even after the
loader adds its metadata columns) do not match the existing table's
columns makes load_dataframe_to_duckdb return normally — the duckdb.Error
is printed and swallowed, not propagated, so the claim fails on the
traffic load path. -/
theorem C6_counterexample_traffic_load_swallows :
    (⟨["b"], 1⟩ : RowBatch).nrows ≠ 0 ∧
    addCol (addCol ["b"] "point") "extraction_timestamp" ≠
      (⟨["a"], 1⟩ : StoreTable).cols ∧
    load_dataframe_to_duckdb (some ⟨["a"], 1⟩) ⟨["b"], 1⟩ =
      .ok (some ⟨["a"], 1⟩) :=
  ⟨by decide, by decide, by decide⟩

/-- C6 (amended): on a non-empty batch with mismatched columns the weather
save path raises the store error to its caller, while the traffic load
path catches the store error, logs it, and returns normally with the
table unchanged. -/
theorem C6_amended_mismatch_propagation (t : StoreTable) (df : RowBatch)
    (hn : df.nrows ≠ 0) :
    (df.cols ≠ t.cols → save_weather_to_duckdb (some t) df = .error ()) ∧
    (addCol (addCol df.cols "point") "extraction_timestamp" ≠ t.cols →
      load_dataframe_to_duckdb (some t) df = .ok (some t)) := by
  constructor
  · intro hm
    have hm' : ¬t.cols = df.cols := fun h => hm h.symm
    simp [save_weather_to_duckdb, storeAppend, hn, hm']
  · intro hm
    have hm' : ¬t.cols = addCol (addCol df.cols "point") "extraction_timestamp" :=
      fun h => hm h.symm
    simp [load_dataframe_to_duckdb, storeAppend, hn, hm']

/-- Witness for the amended C6 at a concrete mismatched batch. -/
theorem C6_amended_witness :
    (⟨["b"], 1⟩ : RowBatch).nrows ≠ 0 ∧
    save_weather_to_duckdb (some ⟨["a"], 1⟩) ⟨["b"], 1⟩ = .error () :=
  ⟨by decide,
    (C6_amended_mismatch_propagation ⟨["a"], 1⟩ ⟨["b"], 1⟩ (by decide)).1
      (by decide)⟩

/-- C5 (code-bug evidence): with points ["1.0,2.0", "3.0,4.0"] where the
fetch for the first point fails and the second succeeds, the extractor
returns a single DataFrame whose rows carry point "3.0,4.0", but pipeline
Step 1 loads that DataFrame as traffic_points[0] and the loader overwrites
its point column, so the stored row is tagged "1.0,2.0" — the point whose
response did NOT produce it. -/
theorem C5_point_mistagged_after_earlier_failure :
    (extract_and_transform_traffic_data
        [("1.0,2.0", none),
         ("3.0,4.0", some (.wellFormed ⟨none, none, none, none, none, none, none⟩))]
        0).map (fun df => df.map TrafficRow.point) = [["3.0,4.0"]] ∧
    (step1StoredRows
        [("1.0,2.0", none),
         ("3.0,4.0", some (.wellFormed ⟨none, none, none, none, none, none, none⟩))]
        0 5).map TrafficRow.point = ["1.0,2.0"] :=
  ⟨by decide, by decide⟩

/-- C3: every traffic row whose resolved location name has at least one
weather row is joined to a weather row of that location that minimises the
absolute difference between the weather capture timestamp and the traffic
extraction timestamp. -/
theorem C3_joins_nearest_in_time (weather : List WeatherRow)
    (traffic : List TrafficRow) (js : List (TrafficRow × WeatherRow))
    (t : TrafficRow) (nm : String) (u0 : WeatherRow)
    (hj : joinTraffic weather traffic = .ok js) (ht : t ∈ traffic)
    (hres : resolveLocationName weather t.point = .ok (some nm))
    (hu0 : u0 ∈ weather) (hname : u0.location_name = some nm) :
    ∃ w, (t, w) ∈ js ∧ w ∈ weather ∧ w.location_name = some nm ∧
      ∀ u ∈ weather, u.location_name = some nm →
        timeDiff w t.extraction_timestamp ≤
          timeDiff u t.extraction_timestamp := by
  have hc : u0 ∈ weather.filter fun w => decide (w.location_name = some nm) :=
    List.mem_filter.mpr ⟨hu0, by simp [hname]⟩
  have hne : (weather.filter fun w => decide (w.location_name = some nm)) ≠ [] := by
    intro he
    rw [he] at hc
    simp at hc
  obtain ⟨w, hw⟩ := @nearestIn_isSome t.extraction_timestamp _ hne
  have hmatch : matchWeather weather t = .ok (some w) := by
    unfold matchWeather
    rw [hres]
    show Except.ok (nearestIn t.extraction_timestamp
      (weather.filter fun u => decide (u.location_name = some nm))) =
      .ok (some w)
    rw [hw]
  refine ⟨w, joinTraffic_mem_of hj ht hmatch, ?_, ?_, ?_⟩
  · exact (List.mem_filter.mp (nearestIn_mem hw)).1
  · have := (List.mem_filter.mp (nearestIn_mem hw)).2
    simpa using this
  · intro u hu hun
    exact nearestIn_min hw u (List.mem_filter.mpr ⟨hu, by simp [hun]⟩)

/-- Witness for C3: one traffic row at t = 100 and weather rows for the
same location at t = 90 and t = 140; the join selects the t = 90 row. -/
theorem C3_joins_nearest_in_time_witness :
    joinTraffic [wL90, wL140] [tL100] = .ok [(tL100, wL90)] ∧
    ∃ w, (tL100, w) ∈ [(tL100, wL90)] ∧ w ∈ [wL90, wL140] ∧
      w.location_name = some "L" ∧
      ∀ u ∈ [wL90, wL140], u.location_name = some "L" →
        timeDiff w tL100.extraction_timestamp ≤
          timeDiff u tL100.extraction_timestamp :=
  ⟨by decide,
    C3_joins_nearest_in_time [wL90, wL140] [tL100] [(tL100, wL90)] tL100 "L"
      wL90 (by decide) (by decide) (by decide) (by decide) (by decide)⟩

/-- C4: a traffic row whose parsed point coordinates equal no weather
row's coordinates contributes to no summary row and does not change the
outcome of the transform — running with or without that row gives the
same result, so it cannot be the cause of a raise. -/
theorem C4_unmatched_point_contributes_nothing (weather : List WeatherRow)
    (pre post : List TrafficRow) (t : TrafficRow) (now : ℤ) (p : ℚ × ℚ)
    (hp : parsePoint t.point = some p)
    (hnomatch : ∀ w ∈ weather,
      ¬(w.latitude = some p.1 ∧ w.longitude = some p.2)) :
    run_transformation (pre ++ t :: post) weather now =
      run_transformation (pre ++ post) weather now := by
  unfold run_transformation
  rw [joinTraffic_skip pre post (matchWeather_none_of_no_coord_match hp hnomatch)]

/-- Witness for C4: a traffic row at point (9, 9) and a weather table whose
only location is at (10, 20); the transform output is the same without the
row, and empty. -/
theorem C4_unmatched_point_witness :
    parsePoint "9.0,9.0" = some (9, 9) ∧
    run_transformation [t99] [wX] 3 = run_transformation [] [wX] 3 ∧
    run_transformation [t99] [wX] 3 = .ok [] :=
  ⟨by decide,
    C4_unmatched_point_contributes_nothing [wX] [] [] t99 3 (9, 9) (by decide)
      (by decide),
    by decide⟩

/-- C7: for every well-formed input to the traffic parser, the produced
row's roadClosure is true exactly when the roadClosure tag is present with
text that lowercases to "true" (any other text and an absent tag give
false), and each numeric column is the typed value of its tag's text when
present and parsable, null when absent or unparsable. -/
theorem C7_traffic_field_decoding (seg : FlowSegmentData) :
    ∃ r, parse_traffic_response_to_dataframe (.wellFormed seg) = [r] ∧
      (r.roadClosure = true ↔
        ∃ s, seg.roadClosure = some s ∧ s.toLower = "true") ∧
      numericFieldSpec seg.currentSpeed r.currentSpeed ∧
      numericFieldSpec seg.freeFlowSpeed r.freeFlowSpeed ∧
      numericFieldSpec seg.currentTravelTime r.currentTravelTime ∧
      numericFieldSpec seg.freeFlowTravelTime r.freeFlowTravelTime ∧
      numericFieldSpec seg.confidence r.confidence := by
  have hnum : ∀ v : Option String, numericFieldSpec v (toNumeric v) := by
    intro v
    refine ⟨?_, ?_, ?_⟩
    · rintro s q rfl hq
      simp [toNumeric, hq]
    · rintro rfl
      rfl
    · rintro s rfl hq
      simp [toNumeric, hq]
  refine ⟨_, rfl, ?_, hnum _, hnum _, hnum _, hnum _, hnum _⟩
  cases hrc : seg.roadClosure with
  | none => simp [closureFlag, hrc]
  | some s =>
    simp only [closureFlag, hrc, decide_eq_true_eq]
    constructor
    · intro h
      exact ⟨s, rfl, h⟩
    · rintro ⟨u, hu, hl⟩
      cases hu
      exact hl

/-- Witness for C7 at a concrete response document. -/
theorem C7_traffic_field_decoding_witness :
    ∃ r, parse_traffic_response_to_dataframe
        (.wellFormed ⟨some "FRC0", some "50", some "60", some "120",
          some "abc", none, some "True"⟩) = [r] ∧
      (r.roadClosure = true ↔
        ∃ s, (some "True" : Option String) = some s ∧ s.toLower = "true") ∧
      numericFieldSpec (some "50") r.currentSpeed ∧
      numericFieldSpec (some "60") r.freeFlowSpeed ∧
      numericFieldSpec (some "120") r.currentTravelTime ∧
      numericFieldSpec (some "abc") r.freeFlowTravelTime ∧
      numericFieldSpec none r.confidence :=
  C7_traffic_field_decoding
    ⟨some "FRC0", some "50", some "60", some "120", some "abc", none,
      some "True"⟩

/-- C10: every row the weather parser produces carries exactly the
caller's latitude, longitude and name; the parser's output is invariant
under the body-level coordinate and name fields (only the current section
is read); and the transform's join only matches a traffic row whose point
string parses to the stored coordinates of some weather row. -/
theorem C10_caller_coords_only :
    (∀ (j : JsonInput) (loc : LocationCoords) (nowUtc : ℤ) (r : WeatherRow),
      r ∈ parse_weather_response_to_dataframe j loc nowUtc →
        r.latitude = loc.lat ∧ r.longitude = loc.lon ∧
          r.location_name = loc.name) ∧
    (∀ (a b : WeatherResponse) (loc : LocationCoords) (nowUtc : ℤ),
      a.current = b.current →
        parse_weather_response_to_dataframe (.wellFormed a) loc nowUtc =
          parse_weather_response_to_dataframe (.wellFormed b) loc nowUtc) ∧
    (∀ (weather : List WeatherRow) (t : TrafficRow) (w : WeatherRow),
      matchWeather weather t = .ok (some w) →
        ∃ p w0, parsePoint t.point = some p ∧ w0 ∈ weather ∧
          w0.latitude = some p.1 ∧ w0.longitude = some p.2) := by
  refine ⟨?_, ?_, ?_⟩
  · intro j loc nowUtc r hr
    cases j with
    | empty => simp [parse_weather_response_to_dataframe] at hr
    | malformed => simp [parse_weather_response_to_dataframe] at hr
    | wellFormed resp =>
      cases hc : resp.current with
      | none => simp [parse_weather_response_to_dataframe, hc] at hr
      | some c =>
        simp only [parse_weather_response_to_dataframe, hc,
          List.mem_singleton] at hr
        rw [hr]
        exact ⟨rfl, rfl, rfl⟩
  · intro a b loc nowUtc hab
    simp only [parse_weather_response_to_dataframe, hab]
  · intro weather t w hm
    obtain ⟨nm, hres, -⟩ := matchWeather_some hm
    obtain ⟨p, w0, hp, hmem, hla, hlo, -⟩ := resolveLocationName_some hres
    exact ⟨p, w0, hp, hmem, hla, hlo⟩

/-- Witness for C10 at a concrete response carrying decoy body
coordinates, and at the concrete join of the C3 scenario. -/
theorem C10_caller_coords_only_witness :
    (∀ r ∈ parse_weather_response_to_dataframe
        (.wellFormed ⟨some ⟨some 25, some "sun", none⟩, some 99, some 98,
          some "Decoy"⟩)
        ⟨some 10, some 20, some "X"⟩ 0,
      r.latitude = some 10 ∧ r.longitude = some 20 ∧
        r.location_name = some "X") ∧
    ∃ p w0, parsePoint tL100.point = some p ∧ w0 ∈ [wL90, wL140] ∧
      w0.latitude = some p.1 ∧ w0.longitude = some p.2 :=
  ⟨fun r hr =>
    C10_caller_coords_only.1 _ ⟨some 10, some 20, some "X"⟩ 0 r hr,
    C10_caller_coords_only.2.2 [wL90, wL140] tL100 wL90 (by decide)⟩

/-- C1 counterexample: with both tables non-empty — weather rows for "X"
at t = 0 (temperature 10, "rain") and t = 100 (temperature 20, "sun") and
traffic rows for the matching point at t = 10 and t = 90 — one run emits
TWO summary rows for the single resolved location name "X", because the
GROUP BY key also contains weather_description and temperature_celsius
and the two traffic rows match different weather rows. -/
theorem C1_counterexample_two_rows_for_one_location :
    run_transformation [tX10, tX90] [wXrain, wXsun] 7 =
      .ok [⟨some "X", some 1, some 1, some "rain", some 10, 10, 7⟩,
           ⟨some "X", some 2, some 1, some "sun", some 20, 90, 7⟩] ∧
    (run_transformation [tX10, tX90] [wXrain, wXsun] 7).map
        (fun l => l.map SummaryRow.location_name) =
      .ok [some "X", some "X"] :=
  ⟨by decide, by decide⟩

/-- C1 (amended): when additionally all weather rows sharing a location
name agree on weather_description and temperature_celsius (as the design
assumes), a completed run emits exactly one summary row per distinct
resolved location name among the joined traffic rows, and that row's
avg_transit_time_minutes and avg_confidence are the SQL averages of
currentTravelTime/60 and confidence over that location's joined traffic
rows. -/
theorem C1_amended_one_row_per_location (traffic : List TrafficRow)
    (weather : List WeatherRow) (js : List (TrafficRow × WeatherRow))
    (now : ℤ) (hj : joinTraffic weather traffic = .ok js)
    (hag : ∀ w1 ∈ weather, ∀ w2 ∈ weather,
      w1.location_name = w2.location_name →
        w1.weather_description = w2.weather_description ∧
        w1.temperature_celsius = w2.temperature_celsius) :
    run_transformation traffic weather now = .ok (summarize js now) ∧
    ((summarize js now).map SummaryRow.location_name).Nodup ∧
    (∀ nm : Option String,
      (∃ s ∈ summarize js now, s.location_name = nm) ↔
        ∃ p ∈ js, p.2.location_name = nm) ∧
    (∀ s ∈ summarize js now,
      s.avg_transit_time_minutes =
        sqlAvg ((js.filter fun p =>
          decide (p.2.location_name = s.location_name)).map
            fun p => p.1.currentTravelTime.map (fun x => x / 60)) ∧
      s.avg_confidence_level =
        sqlAvg ((js.filter fun p =>
          decide (p.2.location_name = s.location_name)).map
            fun p => p.1.confidence)) := by
  have hkey : ∀ p ∈ js, ∀ q ∈ js, p.2.location_name = q.2.location_name →
      keyOf p = keyOf q := by
    intro p hp q hq hname
    have hpw := (joinTraffic_sources hj hp).2
    have hqw := (joinTraffic_sources hj hq).2
    have hpmem := (matchWeather_weather_mem hpw).1
    have hqmem := (matchWeather_weather_mem hqw).1
    obtain ⟨hdesc, htemp⟩ := hag p.2 hpmem q.2 hqmem hname
    simp only [keyOf, hname, hdesc, htemp]
  refine ⟨?_, ?_, ?_, ?_⟩
  · unfold run_transformation
    rw [hj]
    rfl
  · unfold summarize
    rw [List.map_map]
    have hcomp : SummaryRow.location_name ∘ mkSummary js now =
        GroupKey.location_name := rfl
    rw [hcomp]
    refine List.Nodup.map_on ?_ (nodup_firstDedup _)
    intro x hx y hy hxy
    obtain ⟨p, hp, rfl⟩ := List.mem_map.mp (mem_firstDedup.mp hx)
    obtain ⟨q, hq, rfl⟩ := List.mem_map.mp (mem_firstDedup.mp hy)
    exact hkey p hp q hq hxy
  · intro nm
    constructor
    · rintro ⟨s, hs, rfl⟩
      unfold summarize at hs
      obtain ⟨k, hk, rfl⟩ := List.mem_map.mp hs
      obtain ⟨p, hp, rfl⟩ := List.mem_map.mp (mem_firstDedup.mp hk)
      exact ⟨p, hp, rfl⟩
    · rintro ⟨p, hp, rfl⟩
      refine ⟨mkSummary js now (keyOf p), ?_, rfl⟩
      unfold summarize
      exact List.mem_map_of_mem _
        (mem_firstDedup.mpr (List.mem_map_of_mem _ hp))
  · intro s hs
    unfold summarize at hs
    obtain ⟨k, hk, rfl⟩ := List.mem_map.mp hs
    obtain ⟨q, hq, hkq⟩ := List.mem_map.mp (mem_firstDedup.mp hk)
    have hfilter : (js.filter fun p => decide (keyOf p = k)) =
        js.filter fun p =>
          decide (p.2.location_name = (mkSummary js now k).location_name) := by
      apply List.filter_congr
      intro p hp
      apply decide_eq_decide.mpr
      constructor
      · intro hpk
        rw [← hpk]
        rfl
      · intro hln
        have h1 : p.2.location_name = k.location_name := hln
        rw [← hkq] at h1
        have hpq : p.2.location_name = q.2.location_name := h1
        rw [hkey p hp q hq hpq, hkq]
    constructor
    · show sqlAvg ((js.filter fun p => decide (keyOf p = k)).map
          fun p => p.1.currentTravelTime.map (fun x => x / 60)) = _
      rw [hfilter]
    · show sqlAvg ((js.filter fun p => decide (keyOf p = k)).map
          fun p => p.1.confidence) = _
      rw [hfilter]

/-- Witness for the amended C1 at the spec's end-to-end scenario: two
traffic rows (120 s, confidence 1.0; 180 s, confidence 0.8) at the point
of the single weather row for "X" — exactly one summary row for "X" with
avg_transit_time_minutes 2.5 and avg_confidence 0.9. -/
theorem C1_amended_witness :
    joinTraffic [wX] [tX120, tX180] = .ok [(tX120, wX), (tX180, wX)] ∧
    run_transformation [tX120, tX180] [wX] 7 =
      .ok [⟨some "X", some (5 / 2), some (9 / 10), some "sun", some 25, 0,
        7⟩] ∧
    ((summarize [(tX120, wX), (tX180, wX)] 7).map
      SummaryRow.location_name).Nodup :=
  ⟨by decide, by decide,
    (C1_amended_one_row_per_location [tX120, tX180] [wX]
      [(tX120, wX), (tX180, wX)] 7 (by decide)
      (by
        intro w1 h1 w2 h2 _
        rcases List.mem_singleton.mp h1 with rfl
        rcases List.mem_singleton.mp h2 with rfl
        exact ⟨rfl, rfl⟩)).2.1⟩

end ClaimTheorems

end NiceTraffic
